import Mathlib

/-!
# Verification of the Jarvis tool-calling orchestration core

A shallow embedding, in Lean 4, of the tool-calling core of the Jarvis
repository: the tool registry (`src/jarvis/tools/registry.py`), the schema
projector, intent router and tool-execution loop of the hybrid agent
(`src/jarvis/agent/tool_agent.py`), the OpenAI runner
(`src/jarvis/agent/runner.py`) and the history-truncation helper
(`src/jarvis/agent/state.py`).

Python dictionaries are embedded as association lists in insertion order,
Python exceptions as an explicit `Except` channel on the functions that can
raise, and the external collaborators (the Ollama/Groq/OpenAI transports, the
JSON library, the concrete tool functions and the memory store) as parameters
of the embedded functions.
-/

namespace Jarvis

/-! ## Python string helpers -/

/-- The characters Python `str.strip()` removes by default. -/
def pyIsSpace (c : Char) : Bool :=
  c = ' ' || c = '\t' || c = '\n' || c = '\x0d' || c = '\x0b' || c = '\x0c'

/-- Python `str.strip()`: drop leading and trailing whitespace. -/
def pyStrip (s : String) : String :=
  ⟨((s.data.dropWhile pyIsSpace).reverse.dropWhile pyIsSpace).reverse⟩

/-- Python `str.lower()` on the (ASCII) characters this development evaluates;
accented characters in the source patterns are already lower case. -/
def pyLower (s : String) : String :=
  ⟨s.data.map Char.toLower⟩

/-- Substring test on character lists: Python `needle in haystack`. -/
def containsSub (needle : List Char) : List Char → Bool
  | [] => needle.isEmpty
  | c :: rest => needle.isPrefixOf (c :: rest) || containsSub needle rest

/-- Python `needle in haystack` on strings. -/
def strContains (needle hay : String) : Bool :=
  containsSub needle.data hay.data

/-- Python slice `l[i:]`, with Python semantics for a negative start index
(a negative start counts from the end and is clamped at zero). -/
def pySliceFrom (l : List α) (i : Int) : List α :=
  if i < 0 then l.drop ((l.length + i).toNat)
  else l.drop i.toNat

/-! ## A small JSON value model

`JVal` stands for the Python values that cross the tool boundary
(`json.dumps`-able dictionaries).  `JObj` is a Python `dict` in insertion
order. -/

inductive JVal where
  | jnull
  | jbool (b : Bool)
  | jint (n : Int)
  | jstr (s : String)
  | jarr (xs : List JVal)
  | jobj (fields : List (String × JVal))

/-- A Python dictionary with string keys, in insertion order. -/
abbrev JObj := List (String × JVal)

/-- Python `dict.get`. -/
def JObj.get (o : JObj) (k : String) : Option JVal :=
  (o.find? (fun p => p.1 == k)).map Prod.snd

/-- Extract the string payload of a JSON value, if any. -/
def JVal.asStr : JVal → Option String
  | .jstr s => some s
  | _ => none

/-- Escaping of a character inside a JSON string, as `json.dumps` does for the
characters occurring in this development (no exotic control characters). -/
def jEscapeChar (c : Char) : String :=
  if c = '\\' then "\\\\"
  else if c = '\"' then "\\\""
  else if c = '\n' then "\\n"
  else if c = '\t' then "\\t"
  else if c = '\x0d' then "\\r"
  else String.singleton c

/-- Escape a string body for JSON output. -/
def jEscape (s : String) : String :=
  String.join (s.data.map jEscapeChar)

mutual

/-- Python `json.dumps(v, ensure_ascii=False)` with the default separators:
entries joined by a comma and a space, keys and values by a colon and a
space. -/
def dumpJ : JVal → String
  | .jnull => "null"
  | .jbool b => cond b "true" "false"
  | .jint n => toString n
  | .jstr s => "\"" ++ jEscape s ++ "\""
  | .jarr xs => "[" ++ dumpJList xs ++ "]"
  | .jobj fs => "\x7b" ++ dumpJFields fs ++ "\x7d"

/-- Serialize the elements of a JSON array. -/
def dumpJList : List JVal → String
  | [] => ""
  | [x] => dumpJ x
  | x :: y :: rest => dumpJ x ++ ", " ++ dumpJList (y :: rest)

/-- Serialize the fields of a JSON object. -/
def dumpJFields : List (String × JVal) → String
  | [] => ""
  | [(k, v)] => "\"" ++ jEscape k ++ "\": " ++ dumpJ v
  | (k, v) :: y :: rest =>
      "\"" ++ jEscape k ++ "\": " ++ dumpJ v ++ ", " ++ dumpJFields (y :: rest)

end

/-! ## Python exceptions -/

/-- A raised Python exception: its type name and its `str(...)` rendering. -/
structure PyExn where
  ename : String
  emsg : String

/-- Python `f-string` rendering used by the registry except-clause:
the exception type name, a colon and the message. -/
def PyExn.fmt (e : PyExn) : String :=
  e.ename ++ ": " ++ e.emsg

/-! ## The tool registry (`src/jarvis/tools/registry.py`) -/

/-- A tool function: receives an argument dict, returns a result dict or
raises (the `Except.error` channel models a raised exception). -/
abbrev ToolFn := JObj → Except PyExn JObj

/-- `ToolSpec`: name, description, free-text parameter schema and the
executable function, as in `registry.py`. -/
structure ToolSpec where
  name : String
  description : String
  schema : List (String × String)
  fn : ToolFn

/-- `ToolRegistry`: owns the name-to-spec dict (association list in
registration order). -/
structure ToolRegistry where
  tools : List (String × ToolSpec)

/-- Python `self._tools.get(name)`. -/
def ToolRegistry.find (r : ToolRegistry) (name : String) : Option ToolSpec :=
  (r.tools.find? (fun p => p.1 == name)).map Prod.snd

/-- `ToolRegistry.register`: strips the name, raises `ValueError` on an empty
or duplicate name, otherwise appends the spec to the dict. -/
def ToolRegistry.register (r : ToolRegistry) (spec : ToolSpec) :
    Except PyExn ToolRegistry :=
  let name := pyStrip spec.name
  if name = "" then
    .error ⟨"ValueError", "ToolSpec.name no puede estar vacío."⟩
  else if (r.find name).isSome then
    .error ⟨"ValueError", "La tool \x27" ++ name ++ "\x27 ya está registrada."⟩
  else
    .ok ⟨r.tools ++ [(name, spec)]⟩

/-- `ToolRegistry.list`: `dict(self._tools)` — a snapshot copy of the
mapping, not a live view. -/
def ToolRegistry.listSnapshot (r : ToolRegistry) : List (String × ToolSpec) :=
  r.tools

/-- `ToolRegistry.call(name, args)`.  The function is total into a result
dict: the only raising site (`spec.fn(args)`) sits inside
`try/except Exception`, so no exception passes the boundary.  Python
`args or {}` is the `Option.getD` on the optional argument. -/
def ToolRegistry.call (r : ToolRegistry) (name : String) (args : Option JObj) :
    JObj :=
  let args := args.getD []
  match r.find name with
  | none =>
      [("ok", JVal.jbool false),
       ("error", JVal.jstr ("Tool no encontrada: \x27" ++ name ++ "\x27"))]
  | some spec =>
      match spec.fn args with
      | .ok result => [("ok", JVal.jbool true), ("result", JVal.jobj result)]
      | .error e => [("ok", JVal.jbool false), ("error", JVal.jstr e.fmt)]

/-- The structured failure shape `call` returns. -/
def errObj (msg : String) : JObj :=
  [("ok", JVal.jbool false), ("error", JVal.jstr msg)]

/-- The structured success shape `call` returns. -/
def okObj (result : JObj) : JObj :=
  [("ok", JVal.jbool true), ("result", JVal.jobj result)]

/-- `build_default_registry` from `registry.py`: the five tools in
registration order, with their exact names, descriptions and free-text
parameter hints.  The concrete tool implementations live outside the core,
so the executable functions are parameters. -/
def build_default_registry (shellFn fsFn openAppFn runCodeFn webSearchFn : ToolFn) :
    ToolRegistry :=
  ⟨[("shell",
     ⟨"shell",
      "Ejecuta comandos en la terminal (macOS). Devuelve stdout/stderr/returncode. Usa para automatizar tareas del sistema, git, npm, etc.",
      [("command", "str (obligatorio) - comando a ejecutar"),
       ("cwd", "str (opcional) - directorio de trabajo"),
       ("timeout_sec", "int (opcional, default 30) - timeout en segundos"),
       ("env", "dict (opcional) - variables de entorno extra"),
       ("allow_dangerous", "bool (opcional, default False) - permite comandos destructivos"),
       ("shell", "bool (opcional, default True) - ejecutar como shell")],
      shellFn⟩),
    ("filesystem",
     ⟨"filesystem",
      "Operaciones de archivos dentro del workspace (data/workspace/). Acciones: write_text, read_text, list_dir, mkdir, exists, delete. Usa para crear, leer, modificar archivos de forma segura.",
      [("action", "str (obligatorio) - write_text|read_text|list_dir|mkdir|exists|delete"),
       ("path", "str (según action) - ruta relativa dentro del workspace"),
       ("content", "str (solo write_text) - contenido a escribir"),
       ("root_dir", "str (opcional, default \x27data/workspace\x27) - directorio raíz"),
       ("recursive", "bool (solo delete, opcional) - borrar recursivo")],
      fsFn⟩),
    ("open_app",
     ⟨"open_app",
      "Abre aplicaciones, URLs o archivos en macOS usando el comando \x27open\x27. Ejemplos: abrir Spotify, Visual Studio Code, URLs, archivos.",
      [("app", "str (opcional) - nombre de la aplicación (ej: \x27Spotify\x27, \x27Visual Studio Code\x27)"),
       ("target", "str (opcional) - URL o ruta de archivo"),
       ("wait", "bool (opcional, default False) - esperar a que termine"),
       ("new_instance", "bool (opcional, default False) - nueva instancia"),
       ("args", "list[str] (opcional) - argumentos extra para la app")],
      openAppFn⟩),
    ("run_code",
     ⟨"run_code",
      "Ejecuta código Python o Node.js en un sandbox Docker aislado. Monta el workspace y devuelve stdout/stderr. Usa para ejecutar scripts, probar código, análisis de datos.",
      [("language", "str (obligatorio) - \x27python\x27 o \x27node\x27"),
       ("code", "str (opcional) - snippet de código a ejecutar"),
       ("file", "str (opcional) - ruta relativa del archivo en workspace"),
       ("workspace_dir", "str (opcional, default \x27data/workspace\x27)"),
       ("timeout_sec", "int (opcional, default 30)"),
       ("image", "str (opcional) - override imagen docker"),
       ("extra_args", "list[str] (opcional) - argumentos para el script")],
      runCodeFn⟩),
    ("web_search",
     ⟨"web_search",
      "Busca información en la web usando DuckDuckGo. Devuelve título, URL y snippet de los resultados. Usa para buscar información actualizada, noticias, tutoriales.",
      [("query", "str (obligatorio) - consulta de búsqueda"),
       ("limit", "int (opcional, default 5, max 10) - número de resultados")],
      webSearchFn⟩)]⟩

/-! ## The schema projector (`ToolAgent._tools_for_ollama`) -/

/-- A projected property: the inferred JSON-schema `type` and the original
hint text as `description`. -/
structure ParamSchema where
  ptype : String
  pdesc : String

/-- The `parameters` object of a projected tool: either a full object schema
(`type: object` with `properties` and `required`), or — when the tool
declares no parameters — the bare `(type: object)` permitting anything. -/
inductive Parameters where
  | objectSchema (properties : List (String × ParamSchema)) (required : List String)
  | anyObject

/-- One entry of the tool list sent to Ollama:
`(type: function, function: (name, description, parameters))`. -/
structure ProjectedTool where
  fname : String
  fdescription : String
  parameters : Parameters

/-- Type inference of `_tools_for_ollama`: `integer` if the lowered hint
contains `int`, else `boolean` if it contains `bool`, else `string`. -/
def inferFieldType (desc : String) : String :=
  if strContains "int" (pyLower desc) then "integer"
  else if strContains "bool" (pyLower desc) then "boolean"
  else "string"

/-- A field is marked required exactly when its lowered hint contains the
marker `obligatorio`. -/
def fieldRequired (desc : String) : Bool :=
  strContains "obligatorio" (pyLower desc)

/-- Projection of one tool schema: properties in declaration order, the
required list in declaration order, and the arbitrary-object fallback for an
empty schema. -/
def projectParameters (schema : List (String × String)) : Parameters :=
  let properties := schema.map (fun p => (p.1, ParamSchema.mk (inferFieldType p.2) p.2))
  let required := (schema.filter (fun p => fieldRequired p.2)).map Prod.fst
  if properties.isEmpty then Parameters.anyObject
  else Parameters.objectSchema properties required

/-- `ToolAgent._tools_for_ollama`: project every registered tool, in registry
order. -/
def tools_for_ollama (r : ToolRegistry) : List ProjectedTool :=
  r.listSnapshot.map (fun p => ⟨p.2.name, p.2.description, projectParameters p.2.schema⟩)

/-! ## The intent router (`ToolAgent._needs_tools`)

The source tests the lowered utterance against a list of regular
expressions built from word boundaries (`\b`), literal words, alternation
and `.*`.  Alternation is expanded here into one token sequence per
alternative; the remaining constructs are the three token kinds below. -/

/-- One regex token: a word boundary, a literal character, or `.*`
(any run of non-newline characters). -/
inductive Tok where
  | wb
  | ch (c : Char)
  | anyStar

/-- Word characters for `\b` (Python `\w`): ASCII alphanumerics, underscore,
and the accented letters occurring in the source patterns. -/
def isWordChar (c : Char) : Bool :=
  c.isAlphanum || c = '_' || c = 'á' || c = 'é' || c = 'í' || c = 'ó' ||
    c = 'ú' || c = 'ñ'

/-- `\b` holds between the previous character (none at the start) and the
rest of the input iff exactly one side is a word character. -/
def atBoundary (prev : Option Char) (s : List Char) : Bool :=
  let pw := match prev with | none => false | some c => isWordChar c
  let nw := match s with | [] => false | c :: _ => isWordChar c
  pw != nw

/-- `.*` before the continuation `k`: try `k` after consuming zero or more
non-newline characters. -/
def tryStar (k : Option Char → List Char → Bool) : Option Char → List Char → Bool
  | prev, [] => k prev []
  | prev, d :: s2 => k prev (d :: s2) || (d != '\n' && tryStar k (some d) s2)

/-- Does the token sequence match a prefix of `s`, given the character just
before `s` (for word boundaries)? -/
def matchSeq : List Tok → Option Char → List Char → Bool
  | [] => fun _ _ => true
  | .wb :: rest => fun prev s => atBoundary prev s && matchSeq rest prev s
  | .ch c :: rest => fun _ s =>
      match s with
      | [] => false
      | d :: s2 => c == d && matchSeq rest (some d) s2
  | .anyStar :: rest => tryStar (matchSeq rest)

/-- `re.search`: try the token sequence at every position of the input. -/
def searchTok (toks : List Tok) : Option Char → List Char → Bool
  | prev, [] => matchSeq toks prev []
  | prev, c :: cs => matchSeq toks prev (c :: cs) || searchTok toks (some c) cs

/-- The characters of a literal word, as tokens. -/
def chs (s : String) : List Tok :=
  s.data.map Tok.ch

/-- Words joined by `.*` (no boundary between them). -/
def joinStar : List String → List Tok
  | [] => []
  | [w] => chs w
  | w :: rest => chs w ++ [Tok.anyStar] ++ joinStar rest

/-- One alternative of a `\b( ... )\b` pattern: the words joined by `.*`,
wrapped in word boundaries. -/
def wordAlt (ws : List String) : List Tok :=
  [Tok.wb] ++ joinStar ws ++ [Tok.wb]

/-- One alternative of `\b(w1|..).*\b(w2|..)\b`: an extra word boundary
before the second word. -/
def delAlt (w1 w2 : String) : List Tok :=
  [Tok.wb] ++ chs w1 ++ [Tok.anyStar, Tok.wb] ++ chs w2 ++ [Tok.wb]

/-- The `tool_patterns` list of `_needs_tools`, pattern by pattern, each
expanded into its alternatives. -/
def toolPatterns : List (List (List Tok)) :=
  [ -- Comandos/Shell
    ["ejecuta", "corre", "run", "shell", "terminal", "comando"].map (fun w => wordAlt [w]),
    [wordAlt ["lista"], wordAlt ["ls"], wordAlt ["dir"],
     wordAlt ["muestra", "archivo"], wordAlt ["muestra", "carpeta"]],
    ["git", "npm", "pip", "brew", "docker"].map (fun w => wordAlt [w]),
    -- Archivos
    [wordAlt ["crea", "archivo"], wordAlt ["escribe", "archivo"], wordAlt ["lee", "archivo"]],
    [wordAlt ["abre", "carpeta"], wordAlt ["abre", "directorio"]],
    [delAlt "borra" "archivo", delAlt "borra" "carpeta",
     delAlt "elimina" "archivo", delAlt "elimina" "carpeta",
     delAlt "delete" "archivo", delAlt "delete" "carpeta"],
    -- Apps
    ["abre", "open", "lanza", "launch", "inicia", "arranca"].map (fun w => wordAlt [w]),
    ["spotify", "chrome", "safari", "vscode", "visual studio", "finder",
     "mail", "calendar", "notes"].map (fun w => wordAlt [w]),
    -- Código
    [wordAlt ["ejecuta", "código"], wordAlt ["corre", "script"], wordAlt ["run", "code"]],
    [wordAlt ["python", "script"], wordAlt ["node", "script"], wordAlt ["javascript", "script"]],
    -- Web search
    [wordAlt ["busca", "en", "web"], wordAlt ["busca", "internet"], wordAlt ["search", "web"]],
    [wordAlt ["encuentra", "información", "sobre"], wordAlt ["investiga", "sobre"]],
    -- Spotify
    [wordAlt ["pon", "música"], wordAlt ["reproduce"], wordAlt ["pausa"],
     wordAlt ["siguiente", "canción"], wordAlt ["canción", "anterior"]],
    [wordAlt ["sube", "volumen"], wordAlt ["baja", "volumen"], wordAlt ["qué", "está", "sonando"]],
    -- Calendario
    [wordAlt ["qué", "tengo", "hoy"], wordAlt ["qué", "tengo", "mañana"], wordAlt ["eventos", "de"]],
    [wordAlt ["crea", "recordatorio"], wordAlt ["añade", "recordatorio"]],
    -- Email
    [wordAlt ["envía", "email"], wordAlt ["manda", "correo"], wordAlt ["envía", "mensaje"]],
    -- Visión
    [wordAlt ["qué", "hay", "en", "pantalla"], wordAlt ["describe", "pantalla"], wordAlt ["mira", "pantalla"]],
    [wordAlt ["lee", "pantalla"], wordAlt ["lee", "esto"], wordAlt ["transcribe", "pantalla"]],
    [wordAlt ["captura", "pantalla"], wordAlt ["screenshot"], wordAlt ["haz", "captura"]],
    [wordAlt ["qué", "ves"], wordAlt ["puedes", "ver"], wordAlt ["analiza", "imagen"]],
    [wordAlt ["qué", "dice", "en", "pantalla"], wordAlt ["qué", "texto", "hay"]],
    [wordAlt ["mira", "esto"], wordAlt ["observa", "esto"], wordAlt ["fíjate", "en"]] ]

/-- `ToolAgent._needs_tools`: lower the utterance and return true iff some
pattern matches somewhere in it. -/
def needs_tools (user_text : String) : Bool :=
  let cs := (pyLower user_text).data
  toolPatterns.any (fun alts => alts.any (fun toks => searchTok toks none cs))

/-! ## Messages and agent state (`tool_agent.py`, `runner.py`) -/

/-- The raw argument payload of a backend tool-invocation request: already a
mapping, or a raw string still to be JSON-parsed. -/
inductive ArgPayload where
  | obj (o : JObj)
  | rawStr (s : String)

/-- One backend-requested tool invocation: optional correlation id, tool name
and argument payload (`tc["function"]["name"] / ["arguments"]`). -/
structure ToolCall where
  id : Option String
  fname : String
  argsRaw : ArgPayload

/-- A chat message dict.  `toolCalls` is the `tool_calls` key of assistant
messages (empty when absent); `toolCallId` is a correlation-id key on
tool-role messages (`none` when the dict carries no such key, which is what
the source always appends). -/
structure Message where
  role : String
  content : String
  toolCalls : List ToolCall
  toolCallId : Option String

/-- The observable state of a `ToolAgent`: the in-memory session history
(`self.state.history`), the messages and tool events handed to the memory
store, and how many backend HTTP calls were issued. -/
structure AgentSt where
  history : List Message
  savedMessages : List (String × String)
  savedToolEvents : List (String × JObj × JObj)
  backendCalls : Nat
  groqCalls : Nat

/-- `AgentState.add_user`. -/
def AgentSt.addUser (st : AgentSt) (t : String) : AgentSt :=
  { st with history := st.history ++ [Message.mk "user" t [] none] }

/-- `AgentState.add_assistant`. -/
def AgentSt.addAssistant (st : AgentSt) (t : String) : AgentSt :=
  { st with history := st.history ++ [Message.mk "assistant" t [] none] }

/-- `ToolAgentConfig`, restricted to the fields the control flow reads.
`memActive` is the conjunction guarding `_save_message` and
`_save_tool_event` (a memory store is attached, memory is enabled and a
session id is set); `groqAvailable` is `self.groq_client is not None`. -/
structure ToolAgentCfg where
  maxToolLoops : Nat
  useGroq : Bool
  groqAvailable : Bool
  memActive : Bool

/-- `ToolAgent._save_message`: best-effort persistence of one message. -/
def saveMsg (cfg : ToolAgentCfg) (st : AgentSt) (role t : String) : AgentSt :=
  if cfg.memActive then
    { st with savedMessages := st.savedMessages ++ [(role, t)] }
  else st

/-- `ToolAgent._save_tool_event`: best-effort persistence of one tool call. -/
def saveToolEvent (cfg : ToolAgentCfg) (st : AgentSt) (toolName : String)
    (args result : JObj) : AgentSt :=
  if cfg.memActive then
    { st with savedToolEvents := st.savedToolEvents ++ [(toolName, args, result)] }
  else st

/-- The message Ollama returns: text content and the requested tool calls
(empty when the backend answers directly). -/
structure OllamaMsg where
  content : String
  toolCalls : List ToolCall

/-- One Ollama chat round trip: a message, or a raised transport exception. -/
inductive BackendResp where
  | ok (m : OllamaMsg)
  | exn (e : PyExn)

/-- The Groq round trip of `_run_with_groq`: the choice text or a raised
exception. -/
inductive GroqResp where
  | ok (content : String)
  | exn (e : PyExn)

/-- The system prompt of `prompts.py` (the triple-quoted literal after its
trailing `.strip()`). -/
def SYSTEM_PROMPT : String :=
  "Eres Jarvis, un asistente de voz/CLI que actúa como intermediario entre el usuario y su ordenador (macOS).\nTu trabajo es ayudar de forma práctica: escribir código, ejecutar tareas, buscar en web, abrir apps, crear archivos, etc.\n\nREGLAS GENERALES\n- Sé directo y eficiente. Si puedes actuar con una herramienta, actúa.\n- Cuando una tarea requiera varios pasos, piensa en pasos y ejecútalos.\n- Si una herramienta devuelve un error, intenta corregirlo y reintentar una vez.\n- Si necesitas más datos (p.ej. “qué carpeta”, “qué repo”), pregunta UNA cosa concreta.\n\nUSO DE HERRAMIENTAS (TOOLS)\n- Tienes acceso a herramientas como:\n  - run_code: ejecutar Python/Node y devolver stdout/stderr\n  - shell: ejecutar comandos del sistema (macOS)\n  - open_app: abrir aplicaciones\n  - filesystem: leer/escribir/crear archivos bajo el workspace\n  - web_search: buscar en web y devolver fuentes/resumen de resultados\n- Prefiere tools antes de “inventarte” resultados.\n- Cuando hagas una búsqueda, menciona brevemente qué encontraste (sin pegar 200 enlaces).\n\nFORMATO DE RESPUESTAS\n- Si ejecutaste acciones: di qué hiciste y el resultado.\n- Si generaste código: di dónde lo guardaste y cómo ejecutarlo.\n- Si es conversación: responde normal y breve.\n\nIMPORTANTE\n- No afirmes que has hecho cosas si no las hiciste con herramientas.\n- Mantén el contexto de la sesión."

/-- `build_messages`: system prompt, then the session history, then the new
user message. -/
def buildMessages (hist : List Message) (userText : String) : List Message :=
  Message.mk "system" SYSTEM_PROMPT [] none :: (hist ++ [Message.mk "user" userText [] none])

/-- Argument parsing of the loop body: a string payload goes through
`json.loads` (the library is the parameter `jloads`); on a parse failure the
payload is preserved as `(_raw: <original text>)`. -/
def parseArgs (jloads : String → Option JObj) : ArgPayload → JObj
  | .obj o => o
  | .rawStr s =>
      match jloads s with
      | some o => o
      | none => [("_raw", JVal.jstr s)]

/-- The `for tc in tool_calls` body: parse the arguments, execute through
`Registry.call`, persist a tool event, and append a tool-role message with
the JSON-serialized result (and no correlation-id key). -/
def procToolCalls (cfg : ToolAgentCfg) (reg : ToolRegistry)
    (jloads : String → Option JObj) :
    List ToolCall → List Message → AgentSt → List Message × AgentSt
  | [], msgs, st => (msgs, st)
  | tc :: rest, msgs, st =>
      let args := parseArgs jloads tc.argsRaw
      let toolOut := reg.call tc.fname (some args)
      let st := saveToolEvent cfg st tc.fname args toolOut
      let msgs := msgs ++ [Message.mk "tool" (dumpJ (JVal.jobj toolOut)) [] none]
      procToolCalls cfg reg jloads rest msgs st

/-- The fixed loop-limit message. -/
def loopLimitMsg : String := "Límite de tool loops alcanzado."

/-- The fixed empty-input prompt. -/
def emptyInputMsg : String := "Dime qué quieres que haga."

/-- The fixed empty-completion fallback. -/
def noAnswerMsg : String := "No generé respuesta."

/-- The `for loop_count in range(max_tool_loops)` state machine of
`_run_with_ollama(use_tools=True)`.  `backend` is the Ollama transport,
indexed by the number of backend calls already issued; the fuel argument is
the number of loop iterations left.  Returns the turn result, the final
message sequence and the final agent state. -/
def ollamaToolLoop (cfg : ToolAgentCfg) (reg : ToolRegistry)
    (jloads : String → Option JObj) (backend : Nat → BackendResp) :
    Nat → List Message → AgentSt → String × List Message × AgentSt
  | 0, msgs, st =>
      (loopLimitMsg, msgs, saveMsg cfg (st.addAssistant loopLimitMsg) "assistant" loopLimitMsg)
  | Nat.succ n, msgs, st =>
      let resp := backend st.backendCalls
      let st := { st with backendCalls := st.backendCalls + 1 }
      match resp with
      | .exn e =>
          let err := "Error Ollama: " ++ e.emsg
          (err, msgs, saveMsg cfg (st.addAssistant err) "assistant" err)
      | .ok m =>
          let content := pyStrip m.content
          if m.toolCalls.isEmpty then
            let finalText := if content = "" then noAnswerMsg else content
            (finalText, msgs, saveMsg cfg (st.addAssistant finalText) "assistant" finalText)
          else
            let msgs := msgs ++ [Message.mk "assistant" content m.toolCalls none]
            let r := procToolCalls cfg reg jloads m.toolCalls msgs st
            ollamaToolLoop cfg reg jloads backend n r.1 r.2

/-- `_run_with_ollama(user_text, use_tools=True)`: build the message
sequence (the history already holds the user message appended by `run`) and
drive the loop.  The projected tool schemas are part of the request payload;
the abstract transport `backend` consumes them. -/
def runWithOllamaTools (cfg : ToolAgentCfg) (reg : ToolRegistry)
    (jloads : String → Option JObj) (backend : Nat → BackendResp)
    (userText : String) (st : AgentSt) : String × List Message × AgentSt :=
  ollamaToolLoop cfg reg jloads backend cfg.maxToolLoops
    (buildMessages st.history userText) st

/-- `_run_with_ollama(user_text, use_tools=False)`: one backend call, the
sanitizing of an empty completion, and the transport-error path. -/
def runWithOllamaNoTools (cfg : ToolAgentCfg) (backend : Nat → BackendResp)
    (st : AgentSt) : String × AgentSt :=
  let resp := backend st.backendCalls
  let st := { st with backendCalls := st.backendCalls + 1 }
  match resp with
  | .exn e =>
      let err := "Error Ollama: " ++ e.emsg
      (err, saveMsg cfg (st.addAssistant err) "assistant" err)
  | .ok m =>
      let content := pyStrip m.content
      let finalText := if content = "" then noAnswerMsg else content
      (finalText, saveMsg cfg (st.addAssistant finalText) "assistant" finalText)

/-- `_run_with_groq`: one Groq call; on any exception, fall back to Ollama
without tools. -/
def runWithGroq (cfg : ToolAgentCfg) (groq : GroqResp)
    (backend : Nat → BackendResp) (st : AgentSt) : String × AgentSt :=
  let st := { st with groqCalls := st.groqCalls + 1 }
  match groq with
  | .ok c =>
      let finalText := if pyStrip c = "" then noAnswerMsg else pyStrip c
      (finalText, saveMsg cfg (st.addAssistant finalText) "assistant" finalText)
  | .exn _ => runWithOllamaNoTools cfg backend st

/-- `ToolAgent.run`: strip the input, reject an empty one with the fixed
prompt, record the user message, route through the intent classifier, and
dispatch to Groq or Ollama. -/
def ToolAgent.run (cfg : ToolAgentCfg) (reg : ToolRegistry)
    (jloads : String → Option JObj) (backend : Nat → BackendResp)
    (groq : GroqResp) (st : AgentSt) (userText : String) : String × AgentSt :=
  let t := pyStrip userText
  if t = "" then (emptyInputMsg, st)
  else
    let st := saveMsg cfg (st.addUser t) "user" t
    if needs_tools t then
      let r := runWithOllamaTools cfg reg jloads backend t st
      (r.1, r.2.2)
    else if cfg.groqAvailable && cfg.useGroq then
      runWithGroq cfg groq backend st
    else
      runWithOllamaNoTools cfg backend st

/-! ## The OpenAI runner (`runner.py`) -/

/-- `AgentConfig`, restricted to the fields `AgentRunner.run` reads. -/
structure RunnerCfg where
  apiKey : String
  debug : Bool

/-- One OpenAI round trip: the extracted completion text (via `output_text`
or the defensive fallback), or a raised exception. -/
inductive OpenAIResp where
  | ok (text : String)
  | exn (e : PyExn)

/-- `AgentRunner.run`: empty-input rejection, the missing-API-key fixed
message, the happy path, and the debug/sanitized split on a transport
error.  Returns the answer and the updated session history. -/
def AgentRunner.run (cfg : RunnerCfg) (resp : OpenAIResp)
    (hist : List Message) (userText : String) : String × List Message :=
  let t := pyStrip userText
  if t = "" then (emptyInputMsg, hist)
  else
    let hist := hist ++ [Message.mk "user" t [] none]
    if cfg.apiKey = "" then
      let m := "Falta OPENAI_API_KEY en tu .env.\nPon tu clave en \x60.env\x60 y reinicia."
      (m, hist ++ [Message.mk "assistant" m [] none])
    else
      match resp with
      | .ok text =>
          let t2 := pyStrip text
          let t3 := if t2 = "" then "No he podido generar respuesta." else t2
          (t3, hist ++ [Message.mk "assistant" t3 [] none])
      | .exn e =>
          if cfg.debug then
            let err := "Error llamando al modelo: " ++ e.fmt
            (err, hist ++ [Message.mk "assistant" err [] none])
          else
            let safeErr := "Error llamando al modelo. Revisa tu API key/modelo o conexión."
            (safeErr, hist ++ [Message.mk "assistant" safeErr [] none])

/-! ## History truncation (`state.py`) -/

/-- `truncate_history`: keep the history as is while it fits; otherwise keep
the leading system message (when there is one) plus the Python slice
`history[-(max_messages - 1):]`, or just `history[-max_messages:]`. -/
def truncate_history (history : List Message) (max_messages : Int) : List Message :=
  if (history.length : Int) ≤ max_messages then history
  else
    match history with
    | [] => pySliceFrom ([] : List Message) (-max_messages)
    | m0 :: _ =>
        if m0.role = "system" then
          m0 :: pySliceFrom history (-(max_messages - 1))
        else
          pySliceFrom history (-max_messages)

/-! ## Derived predicates and views used by the statements -/

/-- Does a backend response request at least one tool invocation? -/
def isToolReqB : BackendResp → Bool
  | .ok m => !m.toolCalls.isEmpty
  | .exn _ => false

/-- Every tool-role message in the list carries no correlation id. -/
def noToolIds (msgs : List Message) : Bool :=
  msgs.all (fun m => m.role != "tool" || m.toolCallId.isNone)

/-- The name-and-type rows of a projected `parameters` object. -/
def paramTypes : Parameters → List (String × String)
  | .anyObject => []
  | .objectSchema props _ => props.map (fun p => (p.1, p.2.ptype))

/-- The `required` list of a projected `parameters` object. -/
def requiredOf : Parameters → List String
  | .anyObject => []
  | .objectSchema _ req => req

/-- A caller of `ToolRegistry.list` holds the registry and the returned
snapshot; because `list` copies the dict, the two are independent values. -/
structure ClientView where
  reg : ToolRegistry
  snapshot : List (String × ToolSpec)

/-- Call `list()` and keep the result. -/
def takeSnapshot (r : ToolRegistry) : ClientView :=
  ⟨r, r.listSnapshot⟩

/-- Mutate the returned mapping (add, remove or replace entries) — the
arbitrary transformation `f` — without touching the registry. -/
def mutateSnapshot (v : ClientView)
    (f : List (String × ToolSpec) → List (String × ToolSpec)) : ClientView :=
  ⟨v.reg, f v.snapshot⟩

/-! ## Concrete fixtures for witnesses and counterexamples -/

/-- A tool function that succeeds with an empty result. -/
def dummyFn : ToolFn := fun _ => Except.ok []

/-- The default registry with inert tool implementations. -/
def regW : ToolRegistry :=
  build_default_registry dummyFn dummyFn dummyFn dummyFn dummyFn

/-- A JSON parser that always fails (never consulted in the fixtures: the
fixture payloads are already mappings). -/
def jlW : String → Option JObj := fun _ => none

/-- The default configuration: six loop iterations, no Groq, no memory. -/
def cfgW : ToolAgentCfg := ⟨6, false, false, false⟩

/-- A fresh agent state. -/
def agentSt0 : AgentSt := ⟨[], [], [], 0, 0⟩

/-- A backend that requests a tool invocation on every iteration. -/
def backendC2 : Nat → BackendResp :=
  fun _ => .ok ⟨"", [⟨none, "shell", .obj []⟩]⟩

/-- A backend that first requests one `shell` invocation with correlation id
`call_1`, then answers directly. -/
def backendC3 : Nat → BackendResp :=
  fun k => if k = 0 then .ok ⟨"", [⟨some "call_1", "shell", .obj []⟩]⟩
           else .ok ⟨"done", []⟩

/-- A backend that first requests an invocation of the unregistered tool
`teleport`, then answers directly. -/
def backendC4 : Nat → BackendResp :=
  fun k => if k = 0 then .ok ⟨"", [⟨none, "teleport", .obj []⟩]⟩
           else .ok ⟨"done", []⟩

/-- A backend that always answers directly. -/
def backendDone : Nat → BackendResp := fun _ => .ok ⟨"hey", []⟩

/-- A tool whose invoke function raises `ValueError: bad`. -/
def boomSpec : ToolSpec :=
  ⟨"boom", "always raises", [], fun _ => Except.error ⟨"ValueError", "bad"⟩⟩

/-- A registry holding only the raising tool. -/
def testRegistry : ToolRegistry := ⟨[("boom", boomSpec)]⟩

/-- A system message fixture. -/
def msgS : Message := Message.mk "system" "s" [] none

/-- A user message fixture. -/
def msgU : Message := Message.mk "user" "u" [] none

/-- A second user message fixture. -/
def msgU2 : Message := Message.mk "user" "u2" [] none

/-! ## Structural lemmas -/

theorem saveMsg_history (cfg : ToolAgentCfg) (st : AgentSt) (r t : String) :
    (saveMsg cfg st r t).history = st.history := by
  unfold saveMsg; split <;> rfl

theorem saveMsg_backendCalls (cfg : ToolAgentCfg) (st : AgentSt) (r t : String) :
    (saveMsg cfg st r t).backendCalls = st.backendCalls := by
  unfold saveMsg; split <;> rfl

theorem saveToolEvent_history (cfg : ToolAgentCfg) (st : AgentSt) (n : String)
    (a r : JObj) : (saveToolEvent cfg st n a r).history = st.history := by
  unfold saveToolEvent; split <;> rfl

theorem saveToolEvent_backendCalls (cfg : ToolAgentCfg) (st : AgentSt) (n : String)
    (a r : JObj) : (saveToolEvent cfg st n a r).backendCalls = st.backendCalls := by
  unfold saveToolEvent; split <;> rfl

theorem addAssistant_history (st : AgentSt) (t : String) :
    (st.addAssistant t).history = st.history ++ [Message.mk "assistant" t [] none] := rfl

theorem addUser_history (st : AgentSt) (t : String) :
    (st.addUser t).history = st.history ++ [Message.mk "user" t [] none] := rfl

theorem addAssistant_backendCalls (st : AgentSt) (t : String) :
    (st.addAssistant t).backendCalls = st.backendCalls := rfl

theorem procToolCalls_backendCalls (cfg : ToolAgentCfg) (reg : ToolRegistry)
    (jl : String → Option JObj) (l : List ToolCall) :
    ∀ msgs st, (procToolCalls cfg reg jl l msgs st).2.backendCalls = st.backendCalls := by
  induction l with
  | nil => intro msgs st; rfl
  | cons tc rest ih =>
      intro msgs st
      simp only [procToolCalls]
      rw [ih, saveToolEvent_backendCalls]

theorem procToolCalls_history (cfg : ToolAgentCfg) (reg : ToolRegistry)
    (jl : String → Option JObj) (l : List ToolCall) :
    ∀ msgs st, (procToolCalls cfg reg jl l msgs st).2.history = st.history := by
  induction l with
  | nil => intro msgs st; rfl
  | cons tc rest ih =>
      intro msgs st
      simp only [procToolCalls]
      rw [ih, saveToolEvent_history]

/-- The loop body appends, for each requested invocation in order, exactly one
tool-role message holding the JSON-serialized `Registry.call` result and no
correlation id. -/
theorem procToolCalls_msgs (cfg : ToolAgentCfg) (reg : ToolRegistry)
    (jl : String → Option JObj) (l : List ToolCall) :
    ∀ msgs st, (procToolCalls cfg reg jl l msgs st).1
      = msgs ++ l.map (fun tc =>
          Message.mk "tool"
            (dumpJ (JVal.jobj (reg.call tc.fname (some (parseArgs jl tc.argsRaw)))))
            [] none) := by
  induction l with
  | nil => intro msgs st; simp [procToolCalls]
  | cons tc rest ih =>
      intro msgs st
      simp only [procToolCalls, List.map_cons]
      rw [ih]
      simp

theorem noToolIds_append (a c : List Message) :
    noToolIds (a ++ c) = (noToolIds a && noToolIds c) := by
  simp [noToolIds, List.all_append]

theorem procToolCalls_noToolIds (cfg : ToolAgentCfg) (reg : ToolRegistry)
    (jl : String → Option JObj) (l : List ToolCall) :
    ∀ msgs st, noToolIds msgs = true →
      noToolIds (procToolCalls cfg reg jl l msgs st).1 = true := by
  intro msgs st h
  rw [procToolCalls_msgs, noToolIds_append, h]
  simp only [Bool.true_and]
  induction l with
  | nil => rfl
  | cons tc rest ih => simp [noToolIds]

/-- Every run of the loop ends after appending exactly one assistant message
to the session history, whose content is the returned string. -/
theorem ollamaToolLoop_history (cfg : ToolAgentCfg) (reg : ToolRegistry)
    (jl : String → Option JObj) (b : Nat → BackendResp) :
    ∀ n msgs st,
      (ollamaToolLoop cfg reg jl b n msgs st).2.2.history
        = st.history
          ++ [Message.mk "assistant" (ollamaToolLoop cfg reg jl b n msgs st).1 [] none] := by
  intro n
  induction n with
  | zero =>
      intro msgs st
      simp [ollamaToolLoop, saveMsg_history, addAssistant_history]
  | succ n ih =>
      intro msgs st
      cases hb : b st.backendCalls with
      | exn e => simp [ollamaToolLoop, hb, saveMsg_history, addAssistant_history]
      | ok m =>
          cases hm : m.toolCalls.isEmpty with
          | true => simp [ollamaToolLoop, hb, hm, saveMsg_history, addAssistant_history]
          | false =>
              simp only [ollamaToolLoop, hb, hm, Bool.false_eq_true, if_false]
              rw [ih, procToolCalls_history]

/-- The loop issues at most as many backend calls as it has iterations. -/
theorem ollamaToolLoop_calls_le (cfg : ToolAgentCfg) (reg : ToolRegistry)
    (jl : String → Option JObj) (b : Nat → BackendResp) :
    ∀ n msgs st,
      (ollamaToolLoop cfg reg jl b n msgs st).2.2.backendCalls
        ≤ st.backendCalls + n := by
  intro n
  induction n with
  | zero =>
      intro msgs st
      simp [ollamaToolLoop, saveMsg_backendCalls, addAssistant_backendCalls]
  | succ n ih =>
      intro msgs st
      cases hb : b st.backendCalls with
      | exn e =>
          simp only [ollamaToolLoop, hb, saveMsg_backendCalls, addAssistant_backendCalls]
          omega
      | ok m =>
          cases hm : m.toolCalls.isEmpty with
          | true =>
              simp only [ollamaToolLoop, hb, hm, if_true]
              split <;>
                simp only [saveMsg_backendCalls, addAssistant_backendCalls] <;> omega
          | false =>
              simp only [ollamaToolLoop, hb, hm, Bool.false_eq_true, if_false]
              set r : List Message × AgentSt := procToolCalls cfg reg jl m.toolCalls
                  (msgs ++ [Message.mk "assistant" (pyStrip m.content) m.toolCalls none])
                  { st with backendCalls := st.backendCalls + 1 } with hr
              have hcalls : r.2.backendCalls = st.backendCalls + 1 := by
                rw [hr, procToolCalls_backendCalls]
              have := ih r.1 r.2
              omega

/-- If every backend response up to the bound requests a tool invocation, the
loop consumes all its iterations, returns the fixed loop-limit message, and
has issued exactly the bound many backend calls. -/
theorem ollamaToolLoop_all_tools (cfg : ToolAgentCfg) (reg : ToolRegistry)
    (jl : String → Option JObj) (b : Nat → BackendResp) :
    ∀ n msgs st,
      (∀ k, st.backendCalls ≤ k → k < st.backendCalls + n → isToolReqB (b k) = true) →
      (ollamaToolLoop cfg reg jl b n msgs st).1 = loopLimitMsg ∧
      (ollamaToolLoop cfg reg jl b n msgs st).2.2.backendCalls = st.backendCalls + n := by
  intro n
  induction n with
  | zero =>
      intro msgs st _
      exact ⟨rfl, by simp [ollamaToolLoop, saveMsg_backendCalls, addAssistant_backendCalls]⟩
  | succ n ih =>
      intro msgs st h
      have h0 : isToolReqB (b st.backendCalls) = true :=
        h st.backendCalls (Nat.le_refl _) (by omega)
      cases hb : b st.backendCalls with
      | exn e => rw [hb] at h0; simp [isToolReqB] at h0
      | ok m =>
          rw [hb] at h0
          have hm : m.toolCalls.isEmpty = false := by
            simpa [isToolReqB] using h0
          simp only [ollamaToolLoop, hb, hm, Bool.false_eq_true, if_false]
          set r : List Message × AgentSt := procToolCalls cfg reg jl m.toolCalls
              (msgs ++ [Message.mk "assistant" (pyStrip m.content) m.toolCalls none])
              { st with backendCalls := st.backendCalls + 1 } with hr
          have hcalls : r.2.backendCalls = st.backendCalls + 1 := by
            rw [hr, procToolCalls_backendCalls]
          obtain ⟨h1, h2⟩ := ih r.1 r.2 (fun k hk1 hk2 => h k (by omega) (by omega))
          exact ⟨h1, by omega⟩

/-- If no tool-role message of the initial message sequence carries a
correlation id, neither does any tool-role message of the final one. -/
theorem ollamaToolLoop_noToolIds (cfg : ToolAgentCfg) (reg : ToolRegistry)
    (jl : String → Option JObj) (b : Nat → BackendResp) :
    ∀ n msgs st, noToolIds msgs = true →
      noToolIds (ollamaToolLoop cfg reg jl b n msgs st).2.1 = true := by
  intro n
  induction n with
  | zero => intro msgs st h; exact h
  | succ n ih =>
      intro msgs st h
      cases hb : b st.backendCalls with
      | exn e => simpa [ollamaToolLoop, hb] using h
      | ok m =>
          cases hm : m.toolCalls.isEmpty with
          | true => simpa [ollamaToolLoop, hb, hm] using h
          | false =>
              simp only [ollamaToolLoop, hb, hm, Bool.false_eq_true, if_false]
              refine ih _ _ (procToolCalls_noToolIds cfg reg jl m.toolCalls _ _ ?_)
              rw [noToolIds_append, h]
              simp [noToolIds]

/-- The loop consults the backend only at call indices below its iteration
budget: two backends that agree there produce identical runs. -/
theorem ollamaToolLoop_backend_agree (cfg : ToolAgentCfg) (reg : ToolRegistry)
    (jl : String → Option JObj) (b b2 : Nat → BackendResp) :
    ∀ n msgs st,
      (∀ k, st.backendCalls ≤ k → k < st.backendCalls + n → b2 k = b k) →
      ollamaToolLoop cfg reg jl b2 n msgs st = ollamaToolLoop cfg reg jl b n msgs st := by
  intro n
  induction n with
  | zero => intro msgs st _; rfl
  | succ n ih =>
      intro msgs st h
      have h0 : b2 st.backendCalls = b st.backendCalls :=
        h st.backendCalls (Nat.le_refl _) (by omega)
      cases hb : b st.backendCalls with
      | exn e => simp [ollamaToolLoop, hb, h0]
      | ok m =>
          cases hm : m.toolCalls.isEmpty with
          | true => simp [ollamaToolLoop, hb, h0, hm]
          | false =>
              simp only [ollamaToolLoop, hb, h0, hm, Bool.false_eq_true, if_false]
              set r : List Message × AgentSt := procToolCalls cfg reg jl m.toolCalls
                  (msgs ++ [Message.mk "assistant" (pyStrip m.content) m.toolCalls none])
                  { st with backendCalls := st.backendCalls + 1 } with hr
              have hcalls : r.2.backendCalls = st.backendCalls + 1 := by
                rw [hr, procToolCalls_backendCalls]
              exact ih r.1 r.2 (fun k hk1 hk2 => h k (by omega) (by omega))

theorem runWithOllamaNoTools_history (cfg : ToolAgentCfg) (backend : Nat → BackendResp)
    (st : AgentSt) :
    (runWithOllamaNoTools cfg backend st).2.history
      = st.history
        ++ [Message.mk "assistant" (runWithOllamaNoTools cfg backend st).1 [] none] := by
  cases hb : backend st.backendCalls with
  | exn e => simp [runWithOllamaNoTools, hb, saveMsg_history, addAssistant_history]
  | ok m => simp [runWithOllamaNoTools, hb, saveMsg_history, addAssistant_history]

theorem runWithGroq_history (cfg : ToolAgentCfg) (groq : GroqResp)
    (backend : Nat → BackendResp) (st : AgentSt) :
    (runWithGroq cfg groq backend st).2.history
      = st.history
        ++ [Message.mk "assistant" (runWithGroq cfg groq backend st).1 [] none] := by
  cases groq with
  | ok c => simp [runWithGroq, saveMsg_history, addAssistant_history]
  | exn e =>
      simp only [runWithGroq]
      exact runWithOllamaNoTools_history cfg backend _

theorem runWithOllamaTools_history (cfg : ToolAgentCfg) (reg : ToolRegistry)
    (jl : String → Option JObj) (b : Nat → BackendResp) (t : String) (st : AgentSt) :
    (runWithOllamaTools cfg reg jl b t st).2.2.history
      = st.history
        ++ [Message.mk "assistant" (runWithOllamaTools cfg reg jl b t st).1 [] none] := by
  unfold runWithOllamaTools
  exact ollamaToolLoop_history cfg reg jl b cfg.maxToolLoops _ st

/-! ## The claims -/

/-- C1: `ToolRegistry.call` is the failure-isolation boundary.  An
unregistered name yields the structured `(ok: false, error: ...)` failure; an
exception raised by a registered tool's invoke function is caught and
converted to the structured failure; and in every case `call` returns one of
the two structured result shapes — no exception passes the boundary (in the
embedding, `call` is a total function into result dicts although the tool
functions raise through an explicit exception channel). -/
theorem c1_call_isolates_failures (r : ToolRegistry) (name : String) (args : Option JObj) :
    (r.find name = none →
      r.call name args = errObj ("Tool no encontrada: \x27" ++ name ++ "\x27")) ∧
    (∀ spec e, r.find name = some spec → spec.fn (args.getD []) = Except.error e →
      r.call name args = errObj e.fmt) ∧
    ((∃ res, r.call name args = okObj res) ∨ (∃ msg, r.call name args = errObj msg)) := by
  refine ⟨?_, ?_, ?_⟩
  · intro h
    simp [ToolRegistry.call, h, errObj]
  · intro spec e hfind hfn
    simp [ToolRegistry.call, hfind, hfn, errObj]
  · cases hfind : r.find name with
    | none =>
        exact Or.inr ⟨"Tool no encontrada: \x27" ++ name ++ "\x27",
          by simp [ToolRegistry.call, hfind, errObj]⟩
    | some spec =>
        cases hfn : spec.fn (args.getD []) with
        | ok res => exact Or.inl ⟨res, by simp [ToolRegistry.call, hfind, hfn, okObj]⟩
        | error e => exact Or.inr ⟨e.fmt, by simp [ToolRegistry.call, hfind, hfn, errObj]⟩

/-- Witness for C1 at a concrete registry: a lookup of an absent name and a
call to a raising tool both produce the structured failure. -/
theorem c1_witness :
    testRegistry.call "nope" none = errObj "Tool no encontrada: \x27nope\x27" ∧
    testRegistry.call "boom" none = errObj "ValueError: bad" :=
  ⟨(c1_call_isolates_failures testRegistry "nope" none).1 rfl,
   (c1_call_isolates_failures testRegistry "boom" none).2.1 boomSpec
     ⟨"ValueError", "bad"⟩ rfl rfl⟩

/-- C2: with `maxToolLoops = 6` and a fresh call counter, the tool loop
issues at most 6 backend calls; if all six responses request tool
invocations it returns the fixed loop-limit message after exactly 6 calls;
and the run never consults the backend beyond index 5 — a backend that
agrees on the first six indices yields the identical run. -/
theorem c2_loop_bound (cfg : ToolAgentCfg) (reg : ToolRegistry)
    (jloads : String → Option JObj) (backend backend2 : Nat → BackendResp)
    (t : String) (st : AgentSt)
    (hmax : cfg.maxToolLoops = 6) (hst : st.backendCalls = 0) :
    ((runWithOllamaTools cfg reg jloads backend t st).2.2.backendCalls ≤ 6) ∧
    ((∀ k, k < 6 → isToolReqB (backend k) = true) →
      (runWithOllamaTools cfg reg jloads backend t st).1 = loopLimitMsg ∧
      (runWithOllamaTools cfg reg jloads backend t st).2.2.backendCalls = 6) ∧
    ((∀ k, k < 6 → backend2 k = backend k) →
      runWithOllamaTools cfg reg jloads backend2 t st
        = runWithOllamaTools cfg reg jloads backend t st) := by
  unfold runWithOllamaTools
  rw [hmax]
  refine ⟨?_, ?_, ?_⟩
  · have := ollamaToolLoop_calls_le cfg reg jloads backend 6 (buildMessages st.history t) st
    omega
  · intro h
    have := ollamaToolLoop_all_tools cfg reg jloads backend 6 (buildMessages st.history t) st
      (fun k hk1 hk2 => h k (by omega))
    exact ⟨this.1, by omega⟩
  · intro h
    exact ollamaToolLoop_backend_agree cfg reg jloads backend backend2 6 _ st
      (fun k hk1 hk2 => h k (by omega))

/-- Witness for C2: the constant tool-requesting backend exhausts all six
iterations and stops at the fixed loop-limit message. -/
theorem c2_witness :
    ((runWithOllamaTools cfgW regW jlW backendC2 "hola" agentSt0).2.2.backendCalls ≤ 6) ∧
    ((runWithOllamaTools cfgW regW jlW backendC2 "hola" agentSt0).1 = loopLimitMsg ∧
      (runWithOllamaTools cfgW regW jlW backendC2 "hola" agentSt0).2.2.backendCalls = 6) ∧
    (runWithOllamaTools cfgW regW jlW backendC2 "hola" agentSt0
      = runWithOllamaTools cfgW regW jlW backendC2 "hola" agentSt0) := by
  have h := c2_loop_bound cfgW regW jlW backendC2 backendC2 "hola" agentSt0 rfl rfl
  exact ⟨h.1, h.2.1 (fun k _ => rfl), h.2.2 (fun k _ => rfl)⟩

/-- C3 counterexample: the backend request carries correlation id `call_1`,
but the tool-role message appended for its result carries no correlation id
— the source writes only `role` and `content` on tool messages, so the
claimed id equality fails. -/
theorem c3_counterexample :
    ((runWithOllamaTools cfgW regW jlW backendC3 "hola" agentSt0).2.1.get? 2).map
        (fun m => m.toolCalls.map ToolCall.id) = some [some "call_1"] ∧
    ((runWithOllamaTools cfgW regW jlW backendC3 "hola" agentSt0).2.1.get? 3).map
        (fun m => (m.role, m.toolCallId)) = some ("tool", none) ∧
    (none : Option String) ≠ some "call_1" := by
  refine ⟨by decide, by decide, by decide⟩

/-- C3 amended: the assistant message preserves the request correlation ids
verbatim, but the appended tool-result messages carry no correlation id at
all; each result is linked to its request only positionally — the loop body
appends exactly one tool message per requested invocation, in request order,
holding that invocation's serialized `Registry.call` result. -/
theorem c3_amended_no_result_ids (cfg : ToolAgentCfg) (reg : ToolRegistry)
    (jloads : String → Option JObj) (backend : Nat → BackendResp)
    (t : String) (st : AgentSt)
    (l : List ToolCall) (msgs : List Message) (st2 : AgentSt)
    (h : noToolIds st.history = true) :
    noToolIds (runWithOllamaTools cfg reg jloads backend t st).2.1 = true ∧
    (procToolCalls cfg reg jloads l msgs st2).1
      = msgs ++ l.map (fun tc =>
          Message.mk "tool"
            (dumpJ (JVal.jobj (reg.call tc.fname (some (parseArgs jloads tc.argsRaw)))))
            [] none) := by
  constructor
  · unfold runWithOllamaTools
    apply ollamaToolLoop_noToolIds
    unfold buildMessages
    rw [show Message.mk "system" SYSTEM_PROMPT [] none :: (st.history ++ [Message.mk "user" t [] none])
          = [Message.mk "system" SYSTEM_PROMPT [] none] ++ st.history ++ [Message.mk "user" t [] none]
        from by simp]
    rw [noToolIds_append, noToolIds_append, h]
    rfl
  · exact procToolCalls_msgs cfg reg jloads l msgs st2

/-- Witness for C3 (amended): the concrete two-step run and a concrete loop
body step. -/
theorem c3_amended_witness :
    noToolIds agentSt0.history = true ∧
    (noToolIds (runWithOllamaTools cfgW regW jlW backendC3 "hola" agentSt0).2.1 = true ∧
      (procToolCalls cfgW regW jlW [ToolCall.mk (some "call_1") "shell" (ArgPayload.obj [])]
          [] agentSt0).1
        = [] ++ [ToolCall.mk (some "call_1") "shell" (ArgPayload.obj [])].map (fun tc =>
            Message.mk "tool"
              (dumpJ (JVal.jobj (regW.call tc.fname (some (parseArgs jlW tc.argsRaw)))))
              [] none)) :=
  ⟨rfl, c3_amended_no_result_ids cfgW regW jlW backendC3 "hola" agentSt0
      [ToolCall.mk (some "call_1") "shell" (ArgPayload.obj [])] [] agentSt0 rfl⟩

/-- C4 counterexample: the structured error for the unknown tool `teleport`
reads `Tool no encontrada: 'teleport'`, not the claimed
`Tool desconocida: teleport`; the loop appends exactly the former,
serialized. -/
theorem c4_counterexample :
    (JObj.get (regW.call "teleport" (some [])) "error").bind JVal.asStr
      = some "Tool no encontrada: \x27teleport\x27" ∧
    ((runWithOllamaTools cfgW regW jlW backendC4 "hola" agentSt0).2.1.get? 3).map
        Message.content
      = some "\x7b\"ok\": false, \"error\": \"Tool no encontrada: \x27teleport\x27\"\x7d" ∧
    "Tool no encontrada: \x27teleport\x27" ≠ "Tool desconocida: teleport" := by
  refine ⟨by decide, by decide, by decide⟩

/-- C4 amended: a request for the unregistered tool `teleport` is routed
through `Registry.call` like any other invocation — the loop has no
special-case branch — and the loop appends a tool message carrying the
JSON-serialized structured error `(ok: false, error: Tool no encontrada:
'teleport')`, then continues: the following backend answer terminates the
turn normally after exactly two backend calls.  Holds for the default
registry whatever the five tool implementations do. -/
theorem c4_amended_unknown_tool (f1 f2 f3 f4 f5 : ToolFn) :
    (runWithOllamaTools cfgW (build_default_registry f1 f2 f3 f4 f5) jlW backendC4
        "hola" agentSt0).1 = "done" ∧
    (runWithOllamaTools cfgW (build_default_registry f1 f2 f3 f4 f5) jlW backendC4
        "hola" agentSt0).2.2.backendCalls = 2 ∧
    ((runWithOllamaTools cfgW (build_default_registry f1 f2 f3 f4 f5) jlW backendC4
        "hola" agentSt0).2.1.get? 3).map (fun m => (m.role, m.content))
      = some ("tool",
          dumpJ (JVal.jobj
            ((build_default_registry f1 f2 f3 f4 f5).call "teleport" (some [])))) := by
  refine ⟨rfl, rfl, rfl⟩

/-- C5 counterexample: the router classifies the English utterance
`list files in this folder` as pure conversation — none of the patterns
(largely Spanish phrasings) matches — contradicting the claimed
tool-needing classification. -/
theorem c5_counterexample :
    ¬ (needs_tools "list files in this folder" = true) := by decide

/-- C5 amended: both English utterances of the scenario are classified as
pure conversation; the Spanish phrasing of the same file-listing request is
classified as tool-needing. -/
theorem c5_amended_router :
    needs_tools "list files in this folder" = false ∧
    needs_tools "tell me a joke" = false ∧
    needs_tools "lista los archivos de esta carpeta" = true := by
  refine ⟨by decide, by decide, by decide⟩

/-- C6 counterexample: the projector never assigns a declared parameter the
type `object`: the `env` parameter of the default `shell` tool, whose hint
names the mapping type `dict`, is projected as `string`. -/
theorem c6_counterexample :
    strContains "dict" (pyLower "dict (opcional) - variables de entorno extra") = true ∧
    inferFieldType "dict (opcional) - variables de entorno extra" = "string" ∧
    ((tools_for_ollama regW).map (fun t => paramTypes t.parameters)).get? 0
      = some [("command", "string"), ("cwd", "string"), ("timeout_sec", "integer"),
              ("env", "string"), ("allow_dangerous", "boolean"), ("shell", "boolean")] ∧
    ¬ ("string" = "object") := by
  refine ⟨by decide, by decide, by decide, by decide⟩

/-- C6 amended: every declared parameter is projected as `string` by
default, `integer` when the lowered hint contains `int`, `boolean` when it
contains `bool` (checked in that order) — never `object`; a parameter is
required exactly when its hint contains the marker `obligatorio`; a tool
with no declared parameters projects to the arbitrary-object schema.
Checked against the full default registry, independent of the tool
implementations. -/
theorem c6_amended_projection (f1 f2 f3 f4 f5 : ToolFn) (d : String) :
    ((tools_for_ollama (build_default_registry f1 f2 f3 f4 f5)).map
        (fun t => (t.fname, paramTypes t.parameters, requiredOf t.parameters)))
      = [("shell",
          [("command", "string"), ("cwd", "string"), ("timeout_sec", "integer"),
           ("env", "string"), ("allow_dangerous", "boolean"), ("shell", "boolean")],
          ["command"]),
         ("filesystem",
          [("action", "string"), ("path", "string"), ("content", "string"),
           ("root_dir", "string"), ("recursive", "boolean")],
          ["action"]),
         ("open_app",
          [("app", "string"), ("target", "string"), ("wait", "boolean"),
           ("new_instance", "boolean"), ("args", "string")],
          []),
         ("run_code",
          [("language", "string"), ("code", "string"), ("file", "string"),
           ("workspace_dir", "string"), ("timeout_sec", "integer"),
           ("image", "string"), ("extra_args", "string")],
          ["language"]),
         ("web_search",
          [("query", "string"), ("limit", "integer")],
          ["query"])] ∧
    projectParameters [] = Parameters.anyObject ∧
    (inferFieldType d = "integer" ∨ inferFieldType d = "boolean" ∨
      inferFieldType d = "string") := by
  refine ⟨rfl, rfl, ?_⟩
  unfold inferFieldType
  split
  · exact Or.inl rfl
  · split
    · exact Or.inr (Or.inl rfl)
    · exact Or.inr (Or.inr rfl)

/-- C7: an empty or whitespace-only input short-circuits both agents: the
fixed prompt-for-input message is returned and the state — session history,
memory writes and backend-call counters alike — is exactly the input
state. -/
theorem c7_empty_input (cfg : ToolAgentCfg) (reg : ToolRegistry)
    (jloads : String → Option JObj) (backend : Nat → BackendResp)
    (groq : GroqResp) (st : AgentSt) (input : String)
    (rcfg : RunnerCfg) (resp : OpenAIResp) (hist : List Message)
    (h : pyStrip input = "") :
    ToolAgent.run cfg reg jloads backend groq st input = (emptyInputMsg, st) ∧
    AgentRunner.run rcfg resp hist input = (emptyInputMsg, hist) := by
  constructor
  · simp [ToolAgent.run, h]
  · simp [AgentRunner.run, h]

/-- Witness for C7: a whitespace-only input. -/
theorem c7_witness :
    pyStrip "   " = "" ∧
    ToolAgent.run cfgW regW jlW backendDone (GroqResp.ok "x") agentSt0 "   "
      = (emptyInputMsg, agentSt0) ∧
    AgentRunner.run ⟨"key", false⟩ (OpenAIResp.ok "y") [] "   " = (emptyInputMsg, []) :=
  ⟨by decide,
   (c7_empty_input cfgW regW jlW backendDone (GroqResp.ok "x") agentSt0 "   "
      ⟨"key", false⟩ (OpenAIResp.ok "y") [] (by decide)).1,
   (c7_empty_input cfgW regW jlW backendDone (GroqResp.ok "x") agentSt0 "   "
      ⟨"key", false⟩ (OpenAIResp.ok "y") [] (by decide)).2⟩

/-- C8: `Registry.list` returns a snapshot copy: however a caller transforms
the returned mapping, every subsequent `call` on the registry — and the
registry's own mapping — is unchanged, because the snapshot and the registry
are independent values. -/
theorem c8_list_is_snapshot (r : ToolRegistry)
    (f : List (String × ToolSpec) → List (String × ToolSpec))
    (name : String) (args : Option JObj) :
    ((mutateSnapshot (takeSnapshot r) f).reg).call name args = r.call name args ∧
    ((mutateSnapshot (takeSnapshot r) f).reg).listSnapshot = r.listSnapshot :=
  ⟨rfl, rfl⟩

/-- C9 counterexample: with `max_messages = 1` and a two-message history led
by a system message, the Python slice `history[-(max_messages - 1):]` is
`history[-0:]` — the whole list — so `truncate_history` returns three
messages (the system message duplicated, then everything), not exactly
one. -/
theorem c9_counterexample :
    (1 : Int) < (([msgS, msgU] : List Message).length : Int) ∧
    truncate_history [msgS, msgU] 1 = [msgS, msgS, msgU] ∧
    ¬ (((truncate_history [msgS, msgU] 1).length : Int) = 1) := by
  refine ⟨by decide, rfl, by decide⟩

/-- C9 amended: for `max_messages ≥ 2` (in particular the default 20), a
history longer than `max_messages` whose head is a system message truncates
to exactly `max_messages` messages and keeps that system message first. -/
theorem c9_amended_truncation (m0 : Message) (rest : List Message)
    (max_messages : Int) (hrole : m0.role = "system") (h2 : 2 ≤ max_messages)
    (hlen : max_messages < ((m0 :: rest).length : Int)) :
    (((truncate_history (m0 :: rest) max_messages).length : Int) = max_messages) ∧
    (truncate_history (m0 :: rest) max_messages).head? = some m0 := by
  have hnot : ¬ (((m0 :: rest).length : Int) ≤ max_messages) := by omega
  constructor
  · simp only [truncate_history, if_neg hnot, hrole, if_pos, pySliceFrom]
    rw [if_pos (show -(max_messages - 1) < 0 by omega)]
    simp only [List.length_cons, List.length_drop]
    simp only [List.length_cons] at hlen
    omega
  · simp only [truncate_history, if_neg hnot, hrole, if_pos]
    rfl

/-- Witness for C9 (amended): the three-message history at the bound 2. -/
theorem c9_witness :
    msgS.role = "system" ∧ (2 : Int) ≤ 2 ∧
    (2 : Int) < (([msgS, msgU, msgU2] : List Message).length : Int) ∧
    ((((truncate_history [msgS, msgU, msgU2] 2).length : Int) = 2) ∧
      (truncate_history [msgS, msgU, msgU2] 2).head? = some msgS) :=
  ⟨rfl, by decide, by decide,
   c9_amended_truncation msgS [msgU, msgU2] 2 rfl (by decide) (by decide)⟩

/-- C10: for every input that survives the emptiness check, one `run` call
appends exactly one user message — the stripped input — followed by exactly
one assistant message to the in-memory session history, and the assistant
content is the string `run` returns: across the direct-answer,
transport-error, missing-configuration and loop-limit paths of both the
hybrid agent and the OpenAI runner. -/
theorem c10_history_shape (cfg : ToolAgentCfg) (reg : ToolRegistry)
    (jloads : String → Option JObj) (backend : Nat → BackendResp)
    (groq : GroqResp) (st : AgentSt) (input : String)
    (rcfg : RunnerCfg) (resp : OpenAIResp) (hist : List Message)
    (h : ¬ (pyStrip input = "")) :
    (ToolAgent.run cfg reg jloads backend groq st input).2.history
      = st.history
        ++ [Message.mk "user" (pyStrip input) [] none,
            Message.mk "assistant"
              (ToolAgent.run cfg reg jloads backend groq st input).1 [] none] ∧
    (AgentRunner.run rcfg resp hist input).2
      = hist
        ++ [Message.mk "user" (pyStrip input) [] none,
            Message.mk "assistant"
              (AgentRunner.run rcfg resp hist input).1 [] none] := by
  constructor
  · unfold ToolAgent.run
    rw [if_neg h]
    cases hn : needs_tools (pyStrip input) with
    | true =>
        simp only [eq_self_iff_true, if_true, runWithOllamaTools_history, saveMsg_history,
          addUser_history, List.append_assoc, List.singleton_append]
    | false =>
        simp only [Bool.false_eq_true, if_false]
        by_cases hg : (cfg.groqAvailable && cfg.useGroq) = true
        · rw [if_pos hg]
          simp only [runWithGroq_history, saveMsg_history, addUser_history,
            List.append_assoc, List.singleton_append]
        · rw [if_neg hg]
          simp only [runWithOllamaNoTools_history, saveMsg_history, addUser_history,
            List.append_assoc, List.singleton_append]
  · unfold AgentRunner.run
    rw [if_neg h]
    by_cases hk : rcfg.apiKey = ""
    · simp [hk]
    · cases resp with
      | ok text => by_cases ht : pyStrip text = "" <;> simp [hk, ht]
      | exn e => by_cases hd : rcfg.debug = true <;> simp [hk, hd]

/-- Witness for C10: a plain greeting through both agents. -/
theorem c10_witness :
    ¬ (pyStrip "hola" = "") ∧
    ((ToolAgent.run cfgW regW jlW backendDone (GroqResp.ok "x") agentSt0 "hola").2.history
      = agentSt0.history
        ++ [Message.mk "user" (pyStrip "hola") [] none,
            Message.mk "assistant"
              (ToolAgent.run cfgW regW jlW backendDone (GroqResp.ok "x") agentSt0 "hola").1
              [] none] ∧
     (AgentRunner.run ⟨"key", false⟩ (OpenAIResp.ok "yo") [] "hola").2
      = []
        ++ [Message.mk "user" (pyStrip "hola") [] none,
            Message.mk "assistant"
              (AgentRunner.run ⟨"key", false⟩ (OpenAIResp.ok "yo") [] "hola").1 [] none]) :=
  ⟨by decide,
   c10_history_shape cfgW regW jlW backendDone (GroqResp.ok "x") agentSt0 "hola"
     ⟨"key", false⟩ (OpenAIResp.ok "yo") [] (by decide)⟩

end Jarvis
